import Mathlib

/-!
Shallow embedding of the seat reservation and booking backend
(`src/config/redis.js`, `src/routes/show.routes.js`, bookings router,
`src/routes/payment.routes.js`, `src/routes/movie.routes.js`, and the
`Booking` mongoose schema with its partial unique index).

The key-value store models the in-memory fallback client of
`createInMemoryClient` in `src/config/redis.js`: the module-level proxy
returned by `getRedisClient` exposes only
get/set/del/keys/incr/expire/pttl/ttl/ping, in particular it has no
`eval` method, so route handlers always take the

  `typeof redis.eval !== 'function'`

fallback branch.  Time is a `Nat` of seconds; an entry written with
`EX ttl` records the absolute expiry `now + ttl`, and a read at time
`t` returns nothing when `t > expiresAt` (the in-memory client's
`get`).
-/

namespace BookBackend

/-- Association-list lookup with decidable key equality (models
`Map.get` of the in-memory client). -/
def lookupKV {α β : Type} [DecidableEq α] : List (α × β) → α → Option β
  | [], _ => none
  | (k, v) :: rest, key => if k = key then some v else lookupKV rest key

/-- `Map.delete` for one key. -/
def delKV {α β : Type} [DecidableEq α] : List (α × β) → α → List (α × β)
  | [], _ => []
  | (k, v) :: rest, key =>
      if k = key then delKV rest key else (k, v) :: delKV rest key

/-- `Map.set`: replace any previous binding of `key` by `v`. -/
def setKV {α β : Type} [DecidableEq α] (l : List (α × β)) (key : α) (v : β) :
    List (α × β) :=
  (key, v) :: delKV l key

theorem lookupKV_delKV_self {α β : Type} [DecidableEq α]
    (l : List (α × β)) (key : α) :
    lookupKV (delKV l key) key = none := by
  induction l with
  | nil => rfl
  | cons p rest ih =>
    rcases p with ⟨k, v⟩
    by_cases hp : k = key
    · simpa [delKV, hp] using ih
    · simpa [delKV, hp, lookupKV] using ih

theorem lookupKV_delKV_other {α β : Type} [DecidableEq α]
    (l : List (α × β)) (key key' : α) (h : key ≠ key') :
    lookupKV (delKV l key) key' = lookupKV l key' := by
  induction l with
  | nil => rfl
  | cons p rest ih =>
    rcases p with ⟨k, v⟩
    by_cases hp : k = key
    · have hne : k ≠ key' := hp ▸ h
      simp [delKV, hp, lookupKV, hne, h, ih]
    · by_cases hk : k = key'
      · simp [delKV, hp, lookupKV, hk, Ne.symm h]
      · simp [delKV, hp, lookupKV, hk, ih]

theorem lookupKV_setKV_self {α β : Type} [DecidableEq α]
    (l : List (α × β)) (key : α) (v : β) :
    lookupKV (setKV l key v) key = some v := by
  simp [setKV, lookupKV]

theorem lookupKV_setKV_other {α β : Type} [DecidableEq α]
    (l : List (α × β)) (key key' : α) (v : β) (h : key ≠ key') :
    lookupKV (setKV l key v) key' = lookupKV l key' := by
  simp only [setKV, lookupKV, if_neg h]
  exact lookupKV_delKV_other l key key' h

/-! ## Data model -/

/-- Constants from `src/routes/show.routes.js` lines 9-12. -/
def SEAT_LOCK_TTL_SECONDS : Nat := 5 * 60

def LOCK_RATE_LIMIT_TTL : Nat := 60

def LOCK_RATE_LIMIT_MAX : Nat := 20

/-- Constants from the bookings router. -/
def BOOKING_RATE_LIMIT_TTL : Nat := 60

def BOOKING_RATE_LIMIT_MAX : Nat := 10

/-- A seat-lock value: the JSON payload `{userId, lockedAt}` stored under
`seatlock:{showId}:{seatId}` with `EX` expiry.  `parseOk = false` models a
payload that `JSON.parse` rejects (the handlers' `catch` branches). -/
structure Lock where
  userId : String
  lockedAt : Nat
  expiresAt : Nat
  parseOk : Bool
  deriving Repr, DecidableEq

/-- The lock store keyed by `(showId, seatId)`. -/
abbrev LockStore := List ((String × String) × Lock)

/-- A fixed-window rate counter (`redis.incr` + `redis.expire`). -/
structure Counter where
  count : Nat
  windowExpiresAt : Option Nat
  deriving Repr, DecidableEq

inductive BStatus where
  | CONFIRMED
  | CANCELLED
  deriving Repr, DecidableEq

inductive PStatus where
  | PENDING
  | SUCCESS
  | FAILED
  deriving Repr, DecidableEq

/-- A document of the `Booking` collection (mongoose `bookingSchema`). -/
structure Booking where
  id : Nat
  userId : String
  showId : String
  movieId : String
  seats : List String
  totalAmount : Nat
  bookingStatus : BStatus
  paymentStatus : PStatus
  cancelledAt : Option Nat
  deriving Repr, DecidableEq

/-- A document of the `Payment` collection (`paymentSchema`). -/
structure Payment where
  bookingId : Nat
  userId : String
  amount : Nat
  paymentMethod : String
  paymentStatus : PStatus
  failureReason : Option String
  paidAt : Option Nat
  deriving Repr, DecidableEq

structure Show where
  id : String
  movieId : String
  basePrice : Nat
  isActive : Bool
  deriving Repr, DecidableEq

structure Movie where
  id : String
  isActive : Bool
  deriving Repr, DecidableEq

/-- The read-only show/movie collections consulted by the handlers. -/
structure CinemaDb where
  shows : List Show
  movies : List Movie
  deriving Repr, DecidableEq

/-- Socket.io events emitted via `io.to(show:{showId}).emit(...)`. -/
inductive Event where
  | seatsLocked (showId : String) (seats : List String) (userId : String)
  | seatsBooked (showId : String) (seats : List String)
  | seatsClearedAfterPayment (showId : String)
  deriving Repr, DecidableEq

/-- All mutable state the booking/lock/payment handlers touch: seat-lock
keys, the two rate-limit key families, the `bookings` and `payments`
collections, the id counter for freshly inserted bookings, and the list
of broadcast events in emission order. -/
structure SysState where
  locks : LockStore
  lockRate : List ((String × String) × Counter)
  bookingRate : List (String × Counter)
  bookings : List Booking
  payments : List Payment
  nextBookingId : Nat
  events : List Event
  deriving Repr, DecidableEq

def SysState.initial : SysState :=
  { locks := [], lockRate := [], bookingRate := [], bookings := [],
    payments := [], nextBookingId := 0, events := [] }

/-- `Show.findById` + `isActive` check used by both handlers. -/
def findActiveShow (db : CinemaDb) (showId : String) : Option Show :=
  match db.shows.find? (fun s => s.id == showId) with
  | none => none
  | some s => if s.isActive then some s else none

def findActiveMovie (db : CinemaDb) (movieId : String) : Option Movie :=
  match db.movies.find? (fun m => m.id == movieId) with
  | none => none
  | some m => if m.isActive then some m else none

/-- Time-aware read of one lock key: the in-memory client's `get` returns
`null` once `Date.now()` exceeds the recorded expiry. -/
def getLock (locks : LockStore) (showId seatId : String) (now : Nat) :
    Option Lock :=
  match lookupKV locks (showId, seatId) with
  | none => none
  | some l => if now > l.expiresAt then none else some l

/-- One seat of the fallback conflict scan (`show.routes.js` 240-253): a
seat conflicts when a lock key exists and its payload either fails to
parse or names a different user. -/
def isLockConflict (locks : LockStore) (showId userId seatId : String)
    (now : Nat) : Bool :=
  match getLock locks showId seatId now with
  | none => false
  | some l => if l.parseOk ∧ l.userId = userId then false else true

/-- The conflict list accumulated by the fallback loop, in seat order. -/
def lockConflicts (locks : LockStore) (showId userId : String)
    (seats : List String) (now : Nat) : List String :=
  seats.filter (fun s => isLockConflict locks showId userId s now)

/-- The second fallback loop: set every requested seat's lock key to the
payload `{userId, lockedAt: now}` with `EX SEAT_LOCK_TTL_SECONDS`. -/
def setLocks (locks : LockStore) (showId : String) : List String → Lock →
    LockStore
  | [], _ => locks
  | s :: rest, l => setLocks (setKV locks (showId, s) l) showId rest l

/-- Outcomes of `POST /api/shows/:showId/lock-seats`, one constructor per
HTTP response shape. -/
inductive LockOutcome where
  | badRequest
  | rateLimited
  | showNotFound
  | conflict (conflicts : List String)
  | granted (lockedSeats : List String) (lockExpiresInSeconds : Nat)
  deriving Repr, DecidableEq

/-- Rate-limit counter read (`redis.incr` result is previous count + 1). -/
def lockRateCount (st : SysState) (userId showId : String) : Nat :=
  match lookupKV st.lockRate (userId, showId) with
  | none => 0
  | some c => c.count

/-- `POST /api/shows/:showId/lock-seats` (`show.routes.js` 178-284),
under the in-memory client (the proxy exposes no `eval`, so the Lua
branch at lines 226-236 is never taken and the per-seat fallback at
lines 238-261 always runs).  Steps, in source order: seats-array
validation, fixed-window rate limit, active-show lookup, per-seat
conflict scan, all-or-nothing lock set, unconditional `seatsLocked`
broadcast, response. -/
def lockSeats (db : CinemaDb) (st : SysState) (userId showId : String)
    (seats : List String) (now : Nat) : LockOutcome × SysState :=
  if seats = [] then (.badRequest, st)
  else
    let prev := (lookupKV st.lockRate (userId, showId)).getD
      { count := 0, windowExpiresAt := none }
    let cnt := prev.count + 1
    let c1 : Counter :=
      if cnt = 1 then { count := cnt, windowExpiresAt := some (now + LOCK_RATE_LIMIT_TTL) }
      else { prev with count := cnt }
    let st1 := { st with lockRate := setKV st.lockRate (userId, showId) c1 }
    if cnt > LOCK_RATE_LIMIT_MAX then (.rateLimited, st1)
    else
      match findActiveShow db showId with
      | none => (.showNotFound, st1)
      | some _ =>
        let conflicts := lockConflicts st1.locks showId userId seats now
        let locks' :=
          if conflicts = [] then
            setLocks st1.locks showId seats
              { userId := userId, lockedAt := now,
                expiresAt := now + SEAT_LOCK_TTL_SECONDS, parseOk := true }
          else st1.locks
        let st2 := { st1 with
          locks := locks',
          events := st1.events ++ [.seatsLocked showId seats userId] }
        if conflicts = [] then
          (.granted seats SEAT_LOCK_TTL_SECONDS, st2)
        else (.conflict conflicts, st2)

/-! ## Seat map (`GET /api/shows/:showId/seats`) -/

/-- One row of the seat map's lock annotation.  The handler builds
`lockedMap` only from lock payloads that `JSON.parse` accepts, so a seat
with an unparseable payload is reported unlocked. -/
structure SeatAnnotation where
  seatId : String
  isLocked : Bool
  lockedByUser : Bool
  deriving Repr, DecidableEq

/-- The lock-annotation step of `GET /:showId/seats` (`show.routes.js`
130-157): it consults only `seatlock:` keys, never the bookings
collection. -/
def seatMapAnnotations (locks : LockStore) (showId : String)
    (seatIds : List String) (viewer : Option String) (now : Nat) :
    List SeatAnnotation :=
  seatIds.map (fun s =>
    match getLock locks showId s now with
    | none => { seatId := s, isLocked := false, lockedByUser := false }
    | some l =>
      if l.parseOk then
        { seatId := s, isLocked := true,
          lockedByUser := decide (viewer = some l.userId) }
      else { seatId := s, isLocked := false, lockedByUser := false })

/-! ## Booking store (mongoose `Booking` model) -/

/-- The membership condition of the partial unique index
`{showId: 1, seats: 1} / {unique, partialFilterExpression:
{bookingStatus: 'CONFIRMED'}}`: an already-indexed document shares an
index key `(showId, seat)` with the candidate document. -/
def overlapsIndexed (bs : List Booking) (nb : Booking) : Prop :=
  ∃ b ∈ bs, b.bookingStatus = .CONFIRMED ∧ b.showId = nb.showId ∧
    ∃ s ∈ nb.seats, s ∈ b.seats

instance (bs : List Booking) (nb : Booking) :
    Decidable (overlapsIndexed bs nb) := by
  unfold overlapsIndexed; infer_instance

/-- `Booking.create`: the insert succeeds unless the candidate is itself
indexed (`CONFIRMED`) and collides on some `(showId, seat)` index key
with an indexed document, in which case Mongo raises error 11000. -/
def insertBooking (bs : List Booking) (nb : Booking) :
    Option (List Booking) :=
  if nb.bookingStatus = .CONFIRMED ∧ overlapsIndexed bs nb then none
  else some (bs ++ [nb])

/-- `Booking.findById`. -/
def findBooking (bs : List Booking) (bookingId : Nat) : Option Booking :=
  bs.find? (fun b => b.id == bookingId)

/-- The duplicate-key recovery query of the bookings handler:
`Booking.find({showId, seats: {$in: seats}, bookingStatus:
{$ne: 'CANCELLED'}})`, then `occupied` = union of their seats, then
`seats.filter(occupied.has)`.  It reads only the bookings collection. -/
def requeryConflictSeats (bs : List Booking) (showId : String)
    (seats : List String) : List String :=
  let conflicting := bs.filter (fun b =>
    decide (b.showId = showId ∧ (∃ s ∈ b.seats, s ∈ seats) ∧
      b.bookingStatus ≠ .CANCELLED))
  seats.filter (fun s => conflicting.any (fun b => decide (s ∈ b.seats)))

/-- `redis.del` over the lock keys of the given seats (the post-booking
cleanup loop, and the cancel path's cleanup loop). -/
def delSeatLocks (locks : LockStore) (showId : String) :
    List String → LockStore
  | [] => locks
  | s :: rest => delSeatLocks (delKV locks (showId, s)) showId rest

/-- `redis.keys('seatlock:{showId}:*')` followed by `redis.del(keys)`:
the full-show lock sweep of the payment handler. -/
def delShowLocks : LockStore → String → LockStore
  | [], _ => []
  | (k, v) :: rest, showId =>
      if k.1 = showId then delShowLocks rest showId
      else (k, v) :: delShowLocks rest showId

/-- Lock validation in the bookings handler (lines 158-174): a seat is
invalid when no lock key exists, the payload fails to parse, or the
holder differs from the requester. -/
def missingOrForeignLock (locks : LockStore) (showId userId seatId : String)
    (now : Nat) : Bool :=
  match getLock locks showId seatId now with
  | none => true
  | some l => if l.parseOk ∧ l.userId = userId then false else true

inductive BookOutcome where
  | badRequest
  | rateLimited
  | showNotFound
  | movieNotFound
  | lockConflict (invalidSeats : List String)
  | dupConflict (invalidSeats : List String)
  | created (bookingId : Nat)
  deriving Repr, DecidableEq

def bookingRateCount (st : SysState) (userId : String) : Nat :=
  match lookupKV st.bookingRate userId with
  | none => 0
  | some c => c.count

/-- `POST /api/bookings`: input validation, booking rate limit, active
show and movie lookups, per-seat lock validation, `Booking.create`
guarded by the unique index, duplicate-key recovery, then lock cleanup
and `seatsBooked` broadcast on success. -/
def createBooking (db : CinemaDb) (st : SysState)
    (userId showId movieId : String) (seats : List String) (now : Nat) :
    BookOutcome × SysState :=
  if showId = "" ∨ movieId = "" ∨ seats = [] then (.badRequest, st)
  else
    let prev := (lookupKV st.bookingRate userId).getD
      { count := 0, windowExpiresAt := none }
    let cnt := prev.count + 1
    let c1 : Counter :=
      if cnt = 1 then
        { count := cnt, windowExpiresAt := some (now + BOOKING_RATE_LIMIT_TTL) }
      else { prev with count := cnt }
    let st1 := { st with bookingRate := setKV st.bookingRate userId c1 }
    if cnt > BOOKING_RATE_LIMIT_MAX then (.rateLimited, st1)
    else
      match findActiveShow db showId with
      | none => (.showNotFound, st1)
      | some sh =>
        match findActiveMovie db movieId with
        | none => (.movieNotFound, st1)
        | some _ =>
          let invalid := seats.filter
            (fun s => missingOrForeignLock st1.locks showId userId s now)
          if invalid ≠ [] then (.lockConflict invalid, st1)
          else
            let nb : Booking :=
              { id := st1.nextBookingId, userId := userId, showId := showId,
                movieId := movieId, seats := seats,
                totalAmount := sh.basePrice * seats.length,
                bookingStatus := .CONFIRMED, paymentStatus := .PENDING,
                cancelledAt := none }
            match insertBooking st1.bookings nb with
            | none =>
              (.dupConflict (requeryConflictSeats st1.bookings showId seats), st1)
            | some bs' =>
              (.created nb.id,
                { st1 with
                  bookings := bs',
                  nextBookingId := st1.nextBookingId + 1,
                  locks := delSeatLocks st1.locks showId seats,
                  events := st1.events ++ [.seatsBooked showId seats] })

/-! ## Cancellation (`PUT /api/bookings/:id/cancel`) -/

inductive CancelOutcome where
  | notFound
  | alreadyCancelled
  | paidNotCancellable
  | cancelled
  deriving Repr, DecidableEq

/-- `booking.save()` after setting `bookingStatus = 'CANCELLED'` and
`cancelledAt`, applied to the document with the given id. -/
def cancelInStore (bs : List Booking) (bookingId : Nat) (now : Nat) :
    List Booking :=
  bs.map (fun x =>
    if x.id = bookingId then
      { x with bookingStatus := .CANCELLED, cancelledAt := some now }
    else x)

def cancelBooking (st : SysState) (userId : String) (bookingId : Nat)
    (now : Nat) : CancelOutcome × SysState :=
  match st.bookings.find? (fun b => b.id == bookingId && b.userId == userId) with
  | none => (.notFound, st)
  | some b =>
    if b.bookingStatus = .CANCELLED then (.alreadyCancelled, st)
    else if b.paymentStatus = .SUCCESS then (.paidNotCancellable, st)
    else
      (.cancelled,
        { st with
          bookings := cancelInStore st.bookings bookingId now,
          locks := delSeatLocks st.locks b.showId b.seats,
          events := st.events ++ [.seatsClearedAfterPayment b.showId] })

/-! ## Mock payment settlement (`POST /api/payments/mock`) -/

inductive SettleStatus where
  | SUCCESS
  | FAILED
  deriving Repr, DecidableEq

def SettleStatus.toPStatus : SettleStatus → PStatus
  | .SUCCESS => .SUCCESS
  | .FAILED => .FAILED

inductive PayOutcome where
  | notFound
  | forbidden
  | alreadyPaid
  | processed
  deriving Repr, DecidableEq

/-- `booking.save()` after `booking.paymentStatus = status` and, on
FAILED, `booking.bookingStatus = 'CANCELLED'`. -/
def settleInStore (bs : List Booking) (bookingId : Nat)
    (status : SettleStatus) : List Booking :=
  bs.map (fun x =>
    if x.id = bookingId then
      { x with
        paymentStatus := status.toPStatus,
        bookingStatus := if status = .FAILED then .CANCELLED else x.bookingStatus }
    else x)

/-- `POST /api/payments/mock` (`payment.routes.js` 15-84): booking
lookup, ownership check, already-paid check, `Payment.create`, booking
update, and on SUCCESS the full-show lock sweep plus the
`seatsClearedAfterPayment` broadcast. -/
def mockPayment (st : SysState) (userId : String) (bookingId : Nat)
    (status : SettleStatus) (method failureReason : String) (now : Nat) :
    PayOutcome × SysState :=
  match findBooking st.bookings bookingId with
  | none => (.notFound, st)
  | some b =>
    if b.userId ≠ userId then (.forbidden, st)
    else if b.paymentStatus = .SUCCESS then (.alreadyPaid, st)
    else
      let pay : Payment :=
        { bookingId := b.id, userId := userId, amount := b.totalAmount,
          paymentMethod := method, paymentStatus := status.toPStatus,
          failureReason := if status = .FAILED then some failureReason else none,
          paidAt := if status = .SUCCESS then some now else none }
      let st1 := { st with
        payments := st.payments ++ [pay],
        bookings := settleInStore st.bookings bookingId status }
      if status = .SUCCESS then
        (.processed,
          { st1 with
            locks := delShowLocks st1.locks b.showId,
            events := st1.events ++ [.seatsClearedAfterPayment b.showId] })
      else (.processed, st1)

/-! ## Cache layer (movie routes + in-memory client) -/

structure CacheEntry where
  value : String
  expiresAt : Option Nat
  deriving Repr, DecidableEq

abbrev Cache := List (String × CacheEntry)

/-- The in-memory client's `get`: a hit unless the entry has expired. -/
def cacheGet (c : Cache) (key : String) (now : Nat) : Option String :=
  match lookupKV c key with
  | none => none
  | some e =>
    match e.expiresAt with
    | none => some e.value
    | some t => if now > t then none else some e.value

def cacheSet (c : Cache) (key value : String) (ttl now : Nat) : Cache :=
  setKV c key { value := value, expiresAt := some (now + ttl) }

def cacheDel (c : Cache) (key : String) : Cache :=
  delKV c key

/-- Result of a read-through read: the returned payload, the
`fromCache` flag of the response (false exactly when the loader — the
Mongo query — ran), and the resulting cache. -/
structure ReadResult where
  value : String
  fromCache : Bool
  cache : Cache
  deriving Repr, DecidableEq

/-- The read-through pattern of `GET /api/movies` and
`GET /api/movies/:id`: serve the cached payload on a hit, otherwise run
the loader against Mongo, write the result back with the TTL, and serve
it. -/
def readThrough (c : Cache) (key : String) (loaderVal : String)
    (ttl now : Nat) : ReadResult :=
  match cacheGet c key now with
  | some v => { value := v, fromCache := true, cache := c }
  | none =>
    { value := loaderVal, fromCache := false,
      cache := cacheSet c key loaderVal ttl now }

def MOVIES_CACHE_KEY : String := "movies:all"

def movieDetailKey (movieId : String) : String := "movies:" ++ movieId

/-- The invalidation step of `POST /api/movies` (lines 94-100): delete
the list key, then the new movie's detail key. -/
def createMovieInvalidate (c : Cache) (movieId : String) : Cache :=
  cacheDel (cacheDel c MOVIES_CACHE_KEY) (movieDetailKey movieId)

/-! ## Traces of API calls -/

/-- One state-mutating API call against the core. -/
inductive AppOp where
  | lock (userId showId : String) (seats : List String) (now : Nat)
  | book (userId showId movieId : String) (seats : List String) (now : Nat)
  | cancel (userId : String) (bookingId : Nat) (now : Nat)
  | pay (userId : String) (bookingId : Nat) (status : SettleStatus)
      (method failureReason : String) (now : Nat)
  deriving Repr, DecidableEq

def applyOp (db : CinemaDb) (st : SysState) : AppOp → SysState
  | .lock u s seats now => (lockSeats db st u s seats now).2
  | .book u s m seats now => (createBooking db st u s m seats now).2
  | .cancel u b now => (cancelBooking st u b now).2
  | .pay u b outcome method reason now =>
      (mockPayment st u b outcome method reason now).2

def runApp (db : CinemaDb) (st : SysState) : List AppOp → SysState
  | [] => st
  | op :: rest => runApp db (applyOp db st op) rest

/-- The durable invariant of the `Booking` collection, stated between
two records: if both are non-cancelled and for the same show, their
seat arrays are disjoint. -/
def seatDisjoint (b1 b2 : Booking) : Prop :=
  b1.showId = b2.showId → b1.bookingStatus ≠ .CANCELLED →
    b2.bookingStatus ≠ .CANCELLED → ∀ s ∈ b1.seats, s ∉ b2.seats

instance (b1 b2 : Booking) : Decidable (seatDisjoint b1 b2) := by
  unfold seatDisjoint; infer_instance

/-- No seat appears in two distinct non-cancelled booking records of the
same show. -/
def bookingsDisjoint (bs : List Booking) : Prop :=
  bs.Pairwise seatDisjoint

/-! ## Concrete scenario data (used by counterexamples and witnesses) -/

def showOne : Show :=
  { id := "S", movieId := "M", basePrice := 100, isActive := true }

def movieOne : Movie := { id := "M", isActive := true }

/-- One active show `S` of active movie `M` at base price 100. -/
def dbOne : CinemaDb := { shows := [showOne], movies := [movieOne] }

/-- State after user `u1` locks seats `A1`, `A2` of show `S` at time 0. -/
def stLockedU1 : SysState :=
  (lockSeats dbOne SysState.initial "u1" "S" ["A1", "A2"] 0).2

/-- State after `u1` then books those seats at time 10: the booking is
inserted `CONFIRMED` and the two lock keys are deleted. -/
def stBookedU1 : SysState :=
  (createBooking dbOne stLockedU1 "u1" "S" "M" ["A1", "A2"] 10).2

/-- State of the C2 scenario one step further: `u2` locks the already
booked seat `A1` at time 20 (granted, because the lock keys were deleted
by the booking). -/
def stU2Locked : SysState :=
  (lockSeats dbOne stBookedU1 "u2" "S" ["A1"] 20).2

def bkExisting : Booking :=
  { id := 0, userId := "u1", showId := "S", movieId := "M",
    seats := ["A1", "A2"], totalAmount := 200,
    bookingStatus := .CONFIRMED, paymentStatus := .PENDING,
    cancelledAt := none }

def bkNew : Booking :=
  { id := 1, userId := "u2", showId := "S", movieId := "M",
    seats := ["A2", "A3"], totalAmount := 200,
    bookingStatus := .CONFIRMED, paymentStatus := .PENDING,
    cancelledAt := none }

/-- The booking document the handler hands to `Booking.create`. -/
def candidateBooking (st : SysState) (sh : Show) (u showId movieId : String)
    (seats : List String) : Booking :=
  { id := st.nextBookingId, userId := u, showId := showId,
    movieId := movieId, seats := seats,
    totalAmount := sh.basePrice * seats.length,
    bookingStatus := .CONFIRMED, paymentStatus := .PENDING,
    cancelledAt := none }

/-! ## Iterated lock requests (rate-limiter window) -/

/-- `iterateLock db u showId seatsFn now k st`: the state after `k`
lock requests by the same user for the same show within one window,
request `i + 1` asking for `seatsFn i`. -/
def iterateLock (db : CinemaDb) (u showId : String)
    (seatsFn : Nat → List String) (now : Nat) : Nat → SysState → SysState
  | 0, st => st
  | k + 1, st =>
      (lockSeats db (iterateLock db u showId seatsFn now k st) u showId
        (seatsFn k) now).2


/-! ## Store lemmas -/

theorem BStatus.ne_cancelled_iff (b : BStatus) :
    b ≠ .CANCELLED ↔ b = .CONFIRMED := by
  cases b <;> simp

theorem lookupKV_setLocks_of_eq (showId : String) (seats : List String)
    (l : Lock) (k : String × String) :
    ∀ locks : LockStore, lookupKV locks k = some l →
      lookupKV (setLocks locks showId seats l) k = some l := by
  induction seats with
  | nil => intro locks h; simpa [setLocks] using h
  | cons s rest ih =>
    intro locks h
    apply ih
    by_cases hk : (showId, s) = k
    · rw [← hk] at h ⊢
      exact lookupKV_setKV_self _ _ _
    · rw [lookupKV_setKV_other _ _ _ _ hk]; exact h

theorem lookupKV_setLocks_mem (showId : String) (seats : List String)
    (l : Lock) (s : String) (hs : s ∈ seats) :
    ∀ locks : LockStore,
      lookupKV (setLocks locks showId seats l) (showId, s) = some l := by
  induction seats with
  | nil => cases hs
  | cons a rest ih =>
    intro locks
    rcases List.mem_cons.mp hs with h | h
    · subst h
      exact lookupKV_setLocks_of_eq showId rest l (showId, s)
        (setKV locks (showId, s) l) (lookupKV_setKV_self _ _ _)
    · exact ih h _

theorem lookupKV_delSeatLocks_of_none (showId : String) (seats : List String)
    (k : String × String) :
    ∀ locks : LockStore, lookupKV locks k = none →
      lookupKV (delSeatLocks locks showId seats) k = none := by
  induction seats with
  | nil => intro locks h; simpa [delSeatLocks] using h
  | cons s rest ih =>
    intro locks h
    apply ih
    by_cases hk : (showId, s) = k
    · rw [← hk]; exact lookupKV_delKV_self _ _
    · rw [lookupKV_delKV_other _ _ _ hk]; exact h

theorem lookupKV_delSeatLocks_mem (showId : String) (seats : List String)
    (s : String) (hs : s ∈ seats) :
    ∀ locks : LockStore,
      lookupKV (delSeatLocks locks showId seats) (showId, s) = none := by
  induction seats with
  | nil => cases hs
  | cons a rest ih =>
    intro locks
    rcases List.mem_cons.mp hs with h | h
    · subst h
      exact lookupKV_delSeatLocks_of_none showId rest (showId, s)
        (delKV locks (showId, s)) (lookupKV_delKV_self _ _)
    · exact ih h _

/-! ## Preservation of the booking-store invariant (the `C1` chain) -/

theorem insertBooking_disjoint {bs bs' : List Booking} {nb : Booking}
    (hd : bookingsDisjoint bs) (h : insertBooking bs nb = some bs') :
    bookingsDisjoint bs' := by
  unfold insertBooking at h
  split at h
  · exact absurd h (by simp)
  · rename_i hguard
    have hbs' : bs' = bs ++ [nb] := by
      injection h with h'; exact h'.symm
    subst hbs'
    unfold bookingsDisjoint
    rw [List.pairwise_append]
    refine ⟨hd, List.pairwise_singleton _ _, ?_⟩
    intro a ha b hb
    have hb' : b = nb := by simpa using hb
    subst hb'
    intro hshow hnc1 hnc2 s hs1 hs2
    apply hguard
    constructor
    · exact (BStatus.ne_cancelled_iff _).mp hnc2
    · exact ⟨a, ha, (BStatus.ne_cancelled_iff _).mp hnc1, hshow, s, hs2, hs1⟩

/-- Updates that keep a booking's show and seats and only ever move the
status towards `CANCELLED` preserve the disjointness invariant. -/
theorem map_disjoint (f : Booking → Booking)
    (hshow : ∀ b, (f b).showId = b.showId)
    (hseats : ∀ b, (f b).seats = b.seats)
    (hstatus : ∀ b, (f b).bookingStatus = b.bookingStatus ∨
      (f b).bookingStatus = .CANCELLED)
    {bs : List Booking} (hd : bookingsDisjoint bs) :
    bookingsDisjoint (bs.map f) := by
  unfold bookingsDisjoint at hd ⊢
  rw [List.pairwise_map]
  refine hd.imp ?_
  intro a b hab hsh hnc1 hnc2 s hs1 hs2
  rcases hstatus a with ha | ha
  · rcases hstatus b with hb | hb
    · rw [hseats a] at hs1
      rw [hseats b] at hs2
      rw [hshow a, hshow b] at hsh
      exact hab hsh (ha ▸ hnc1) (hb ▸ hnc2) s hs1 hs2
    · exact hnc2 hb
  · exact hnc1 ha

theorem cancelInStore_disjoint {bs : List Booking} (bookingId : Nat)
    (now : Nat) (hd : bookingsDisjoint bs) :
    bookingsDisjoint (cancelInStore bs bookingId now) := by
  unfold cancelInStore
  apply map_disjoint _ _ _ _ hd
  · intro b; by_cases h : b.id = bookingId <;> simp [h]
  · intro b; by_cases h : b.id = bookingId <;> simp [h]
  · intro b; by_cases h : b.id = bookingId <;> simp [h]

theorem settleInStore_disjoint {bs : List Booking} (bookingId : Nat)
    (status : SettleStatus) (hd : bookingsDisjoint bs) :
    bookingsDisjoint (settleInStore bs bookingId status) := by
  unfold settleInStore
  apply map_disjoint _ _ _ _ hd
  · intro b; by_cases h : b.id = bookingId <;> simp [h]
  · intro b; by_cases h : b.id = bookingId <;> simp [h]
  · intro b
    by_cases h : b.id = bookingId
    · by_cases hf : status = .FAILED <;> simp [h, hf]
    · simp [h]

theorem lockSeats_bookings (db : CinemaDb) (st : SysState)
    (userId showId : String) (seats : List String) (now : Nat) :
    ((lockSeats db st userId showId seats now).2).bookings = st.bookings := by
  unfold lockSeats
  repeat' (first | split | dsimp only)

theorem createBooking_disjoint (db : CinemaDb) (st : SysState)
    (userId showId movieId : String) (seats : List String) (now : Nat)
    (hd : bookingsDisjoint st.bookings) :
    bookingsDisjoint
      ((createBooking db st userId showId movieId seats now).2).bookings := by
  unfold createBooking
  repeat' (first | split | dsimp only)
  all_goals first
    | exact hd
    | exact insertBooking_disjoint hd ‹_›

theorem cancelBooking_disjoint (st : SysState) (userId : String)
    (bookingId : Nat) (now : Nat) (hd : bookingsDisjoint st.bookings) :
    bookingsDisjoint ((cancelBooking st userId bookingId now).2).bookings := by
  unfold cancelBooking
  repeat' (first | split | dsimp only)
  all_goals first
    | exact hd
    | exact cancelInStore_disjoint _ _ hd

theorem mockPayment_disjoint (st : SysState) (userId : String)
    (bookingId : Nat) (status : SettleStatus) (method failureReason : String)
    (now : Nat) (hd : bookingsDisjoint st.bookings) :
    bookingsDisjoint
      ((mockPayment st userId bookingId status method failureReason now).2).bookings := by
  unfold mockPayment
  repeat' (first | split | dsimp only)
  all_goals first
    | exact hd
    | exact settleInStore_disjoint _ _ hd

theorem applyOp_disjoint (db : CinemaDb) (st : SysState) (op : AppOp)
    (hd : bookingsDisjoint st.bookings) :
    bookingsDisjoint (applyOp db st op).bookings := by
  cases op with
  | lock u s seats now =>
    simpa [applyOp, lockSeats_bookings] using hd
  | book u s m seats now =>
    exact createBooking_disjoint db st u s m seats now hd
  | cancel u b now =>
    exact cancelBooking_disjoint st u b now hd
  | pay u b status method reason now =>
    exact mockPayment_disjoint st u b status method reason now hd

theorem runApp_disjoint (db : CinemaDb) (ops : List AppOp) :
    ∀ st : SysState, bookingsDisjoint st.bookings →
      bookingsDisjoint (runApp db st ops).bookings := by
  induction ops with
  | nil => intro st hd; exact hd
  | cons op rest ih =>
    intro st hd
    exact ih _ (applyOp_disjoint db st op hd)

/-! ## Dissection of the lock-seats handler -/

theorem lockRateCount_eq (st : SysState) (u showId : String) :
    ((lookupKV st.lockRate (u, showId)).getD
      { count := 0, windowExpiresAt := none }).count = lockRateCount st u showId := by
  unfold lockRateCount
  cases lookupKV st.lockRate (u, showId) <;> rfl

/-- Behaviour of `lockSeats` once the request passes input validation,
the rate limiter, and the show lookup: conflicts are exactly
`lockConflicts`, a conflicting request leaves the lock keys untouched, a
clean request sets them all, and the `seatsLocked` event is appended in
both cases. -/
theorem lockSeats_spec (db : CinemaDb) (st : SysState) (u showId : String)
    (seats : List String) (now : Nat) (sh : Show)
    (hne : seats ≠ [])
    (hrate : lockRateCount st u showId + 1 ≤ LOCK_RATE_LIMIT_MAX)
    (hshow : findActiveShow db showId = some sh) :
    (lockConflicts st.locks showId u seats now = [] →
      (lockSeats db st u showId seats now).1
        = .granted seats SEAT_LOCK_TTL_SECONDS ∧
      ((lockSeats db st u showId seats now).2).locks
        = setLocks st.locks showId seats
            { userId := u, lockedAt := now,
              expiresAt := now + SEAT_LOCK_TTL_SECONDS, parseOk := true }) ∧
    (lockConflicts st.locks showId u seats now ≠ [] →
      (lockSeats db st u showId seats now).1
        = .conflict (lockConflicts st.locks showId u seats now) ∧
      ((lockSeats db st u showId seats now).2).locks = st.locks) ∧
    ((lockSeats db st u showId seats now).2).events
      = st.events ++ [.seatsLocked showId seats u] := by
  unfold lockSeats
  dsimp only
  rw [if_neg hne, lockRateCount_eq, if_neg (by omega), hshow]
  by_cases hc : lockConflicts st.locks showId u seats now = []
  · simp [hc]
  · simp [hc]

/-- Rate-limiter behaviour of `lockSeats`: every request with a
non-empty seats array increments the per-(user, show) counter, the first
request of a window stores the window expiry, and a request arriving
with the counter at the maximum is answered `rateLimited`. -/
theorem lockSeats_lockRate (db : CinemaDb) (st : SysState)
    (u showId : String) (seats : List String) (now : Nat)
    (hne : seats ≠ []) :
    ((lockSeats db st u showId seats now).2).lockRate
      = setKV st.lockRate (u, showId)
          (if lockRateCount st u showId + 1 = 1 then
            { count := lockRateCount st u showId + 1,
              windowExpiresAt := some (now + LOCK_RATE_LIMIT_TTL) }
          else
            { count := lockRateCount st u showId + 1,
              windowExpiresAt := ((lookupKV st.lockRate (u, showId)).getD
                { count := 0, windowExpiresAt := none }).windowExpiresAt }) := by
  unfold lockSeats
  dsimp only
  rw [if_neg hne, lockRateCount_eq]
  repeat' (first | split | dsimp only)

theorem lockSeats_rate_spec (db : CinemaDb) (st : SysState)
    (u showId : String) (seats : List String) (now : Nat)
    (hne : seats ≠ []) :
    lockRateCount ((lockSeats db st u showId seats now).2) u showId
      = lockRateCount st u showId + 1 ∧
    (lookupKV st.lockRate (u, showId) = none →
      lookupKV ((lockSeats db st u showId seats now).2).lockRate (u, showId)
        = some { count := 1, windowExpiresAt := some (now + LOCK_RATE_LIMIT_TTL) }) ∧
    (lockRateCount st u showId + 1 > LOCK_RATE_LIMIT_MAX →
      (lockSeats db st u showId seats now).1 = .rateLimited) := by
  refine ⟨?_, ?_, ?_⟩
  · unfold lockRateCount
    rw [lockSeats_lockRate db st u showId seats now hne, lookupKV_setKV_self]
    dsimp only
    split <;> rfl
  · intro hfresh
    have h0 : lockRateCount st u showId = 0 := by
      unfold lockRateCount; rw [hfresh]
    rw [lockSeats_lockRate db st u showId seats now hne, lookupKV_setKV_self, h0]
    simp
  · intro hmax
    unfold lockSeats
    dsimp only
    rw [if_neg hne, lockRateCount_eq, if_pos hmax]

/-! ## Dissection of the booking and payment handlers -/

theorem bookingRateCount_eq (st : SysState) (u : String) :
    ((lookupKV st.bookingRate u).getD
      { count := 0, windowExpiresAt := none }).count = bookingRateCount st u := by
  unfold bookingRateCount
  cases lookupKV st.bookingRate u <;> rfl

/-- C5: when `Booking.create` is rejected by the unique index
(duplicate-key error) after the request passed validation, rate
limiting, the show/movie lookups and the lock check, the handler
re-queries the non-cancelled bookings of the show whose seats intersect
the request and answers 409 with exactly the requested seats found in
those bookings — `requeryConflictSeats`, a function of the bookings
collection alone, with no lock-state argument — while the bookings,
locks, payments and events are left untouched (no booking record
remains). -/
theorem createBooking_dup (db : CinemaDb) (st : SysState)
    (u showId movieId : String) (seats : List String) (now : Nat)
    (sh : Show) (mv : Movie)
    (hs : showId ≠ "") (hm : movieId ≠ "") (hne : seats ≠ [])
    (hrate : bookingRateCount st u + 1 ≤ BOOKING_RATE_LIMIT_MAX)
    (hshow : findActiveShow db showId = some sh)
    (hmov : findActiveMovie db movieId = some mv)
    (hlocks : ∀ s ∈ seats, missingOrForeignLock st.locks showId u s now = false)
    (hdup : insertBooking st.bookings
      (candidateBooking st sh u showId movieId seats) = none) :
    (createBooking db st u showId movieId seats now).1
      = .dupConflict (requeryConflictSeats st.bookings showId seats) ∧
    ((createBooking db st u showId movieId seats now).2).bookings = st.bookings ∧
    ((createBooking db st u showId movieId seats now).2).locks = st.locks ∧
    ((createBooking db st u showId movieId seats now).2).payments = st.payments ∧
    ((createBooking db st u showId movieId seats now).2).events = st.events := by
  unfold createBooking
  dsimp only
  rw [if_neg (by simp [hs, hm, hne]), bookingRateCount_eq, if_neg (by omega),
    hshow, hmov]
  dsimp only
  have hf : seats.filter
      (fun s => missingOrForeignLock st.locks showId u s now) = [] := by
    rw [List.filter_eq_nil_iff]
    intro s hs'
    simp [hlocks s hs']
  rw [if_neg (by simp [hf])]
  unfold candidateBooking at hdup
  rw [hdup]
  exact ⟨rfl, rfl, rfl, rfl, rfl⟩

theorem findBooking_settleInStore (bs : List Booking) (bid : Nat)
    (status : SettleStatus) (b : Booking)
    (h : findBooking bs bid = some b) :
    findBooking (settleInStore bs bid status) bid
      = some { b with
          paymentStatus := status.toPStatus,
          bookingStatus :=
            if status = .FAILED then .CANCELLED else b.bookingStatus } := by
  induction bs with
  | nil => simp [findBooking] at h
  | cons x rest ih =>
    by_cases hx : x.id = bid
    · have hb : b = x := by
        unfold findBooking at h
        rw [List.find?_cons_of_pos _ (by simpa using hx)] at h
        exact (Option.some_inj.mp h).symm
      subst hb
      unfold findBooking settleInStore
      rw [List.map_cons, List.find?_cons_of_pos _ (by simp [hx])]
      simp [hx]
    · have h' : findBooking rest bid = some b := by
        unfold findBooking at h ⊢
        rwa [List.find?_cons_of_neg _ (by simpa using hx)] at h
      have := ih h'
      unfold findBooking settleInStore at this ⊢
      rw [List.map_cons, List.find?_cons_of_neg _ (by simp [hx])]
      exact this

/-! ## Claim theorems -/

/-- C1: for every show, across all bookings whose `bookingStatus` is not
`CANCELLED`, no seat identifier appears in the seats arrays of two
distinct booking records — the invariant holds in every state reachable
by any sequence of API calls from the empty store — and any attempt to
insert a booking whose seats overlap an existing non-cancelled booking
for the same show is rejected by the store's unique index. -/
theorem booking_store_seat_uniqueness (db : CinemaDb) (ops : List AppOp) :
    bookingsDisjoint (runApp db SysState.initial ops).bookings ∧
    ∀ (bs : List Booking) (nb b : Booking), b ∈ bs →
      b.bookingStatus ≠ .CANCELLED → nb.bookingStatus ≠ .CANCELLED →
      b.showId = nb.showId → (∃ s ∈ nb.seats, s ∈ b.seats) →
      insertBooking bs nb = none := by
  constructor
  · exact runApp_disjoint db ops SysState.initial List.Pairwise.nil
  · intro bs nb b hb hbnc hnbnc hshow hover
    unfold insertBooking
    rw [if_pos]
    exact ⟨(BStatus.ne_cancelled_iff _).mp hnbnc,
      b, hb, (BStatus.ne_cancelled_iff _).mp hbnc, hshow, hover⟩

/-- Witness for C1: the invariant after a concrete lock-then-book trace,
and a concrete overlapping insert being rejected. -/
theorem booking_store_seat_uniqueness_witness :
    bookingsDisjoint (runApp dbOne SysState.initial
      [.lock "u1" "S" ["A1", "A2"] 0, .book "u1" "S" "M" ["A1", "A2"] 10]).bookings ∧
    insertBooking [bkExisting] bkNew = none := by
  refine ⟨(booking_store_seat_uniqueness dbOne _).1, ?_⟩
  exact (booking_store_seat_uniqueness dbOne []).2 [bkExisting] bkNew bkExisting
    (by decide) (by decide) (by decide) (by decide) ⟨"A2", by decide, by decide⟩

/-- C2 counterexample: in `stBookedU1`, seat `A1` of show `S` belongs to
a non-cancelled booking, yet a lock attempt on `A1` by the other user
`u2` is granted (not reported as a conflict), and the seat map reports
both booked seats as unlocked: neither the lock path nor the seat-map
view consults booking occupancy. -/
theorem booked_seat_lockable_counterexample :
    (∃ b ∈ stBookedU1.bookings, b.bookingStatus ≠ .CANCELLED ∧
      b.showId = "S" ∧ "A1" ∈ b.seats) ∧
    (lockSeats dbOne stBookedU1 "u2" "S" ["A1"] 20).1
      = .granted ["A1"] SEAT_LOCK_TTL_SECONDS ∧
    seatMapAnnotations stBookedU1.locks "S" ["A1", "A2"] (some "u2") 20
      = [{ seatId := "A1", isLocked := false, lockedByUser := false },
         { seatId := "A2", isLocked := false, lockedByUser := false }] := by
  decide

/-- C2 (amended): a successful booking deletes the lock keys of the
booked seats, and the lock path decides its outcome from lock keys and
rate counters alone — two states agreeing on those produce the same
outcome regardless of their bookings — so a booked seat whose locks are
gone is lockable again by any user; the seat-map annotation likewise
reads only lock keys (its definition takes no bookings at all). -/
theorem lock_path_ignores_bookings :
    (∀ (db : CinemaDb) (st st' : SysState) (u showId movieId : String)
        (seats : List String) (now : Nat) (bid : Nat),
      createBooking db st u showId movieId seats now = (.created bid, st') →
      ∀ s ∈ seats, lookupKV st'.locks (showId, s) = none) ∧
    (∀ (db : CinemaDb) (st st2 : SysState) (u showId : String)
        (seats : List String) (now : Nat),
      st2.locks = st.locks → st2.lockRate = st.lockRate →
      (lockSeats db st2 u showId seats now).1
        = (lockSeats db st u showId seats now).1) := by
  constructor
  · intro db st st' u showId movieId seats now bid hbook s hs
    unfold createBooking at hbook
    dsimp only at hbook
    repeat' split at hbook
    all_goals simp only [Prod.mk.injEq, reduceCtorEq, false_and] at hbook
    all_goals
      (rw [← hbook.2]
       dsimp only
       exact lookupKV_delSeatLocks_mem showId seats s hs _)
  · intro db st st2 u showId seats now hlocks hrate
    unfold lockSeats
    dsimp only
    rw [hlocks, hrate, lockRateCount_eq]
    by_cases h1 : seats = []
    · simp [h1]
    · by_cases h2 : lockRateCount st u showId + 1 > LOCK_RATE_LIMIT_MAX
      · simp [h1, h2]
      · cases hshow : findActiveShow db showId with
        | none => simp [h1, h2, hshow]
        | some sh =>
          by_cases hc : lockConflicts st.locks showId u seats now = [] <;>
            simp [h1, h2, hshow, hc]

/-- Witness for C2 (amended): after the concrete booking, the booked
seats' lock keys are gone, and deleting the bookings from the state does
not change the lock outcome. -/
theorem lock_path_ignores_bookings_witness :
    (∀ s ∈ ["A1", "A2"], lookupKV stBookedU1.locks ("S", s) = none) ∧
    (lockSeats dbOne { stBookedU1 with bookings := [], payments := [] }
        "u2" "S" ["A1"] 20).1
      = (lockSeats dbOne stBookedU1 "u2" "S" ["A1"] 20).1 := by
  constructor
  · exact (lock_path_ignores_bookings).1 dbOne stLockedU1 stBookedU1
      "u1" "S" "M" ["A1", "A2"] 10 0 (by decide)
  · exact (lock_path_ignores_bookings).2 dbOne stBookedU1
      { stBookedU1 with bookings := [], payments := [] }
      "u2" "S" ["A1"] 20 rfl rfl

/-- C3 counterexample: `u1` holds an unexpired lock on seat `A1` of show
`S`, and `u1`'s own re-lock attempt before expiry is granted — not
reported as a conflict, contrary to the claim. -/
theorem same_holder_relock_counterexample :
    getLock stLockedU1.locks "S" "A1" 10
      = some { userId := "u1", lockedAt := 0,
               expiresAt := SEAT_LOCK_TTL_SECONDS, parseOk := true } ∧
    (lockSeats dbOne stLockedU1 "u1" "S" ["A1"] 10).1
      = .granted ["A1"] SEAT_LOCK_TTL_SECONDS := by
  decide

/-- C3 (amended): a seat whose unexpired lock is held by the requesting
user (with a parseable payload) is never reported as a conflict — only a
lock held by a different user is — and when every requested seat is free
or held by the requester, the request is granted and every lock key is
re-set with a fresh TTL (an idempotent refresh). -/
theorem same_holder_relock_not_conflict (db : CinemaDb) (st : SysState)
    (u showId : String) (seats : List String) (now : Nat) (sh : Show)
    (l : Lock) (s0 : String) :
    (getLock st.locks showId s0 now = some l → l.parseOk = true →
      l.userId = u → isLockConflict st.locks showId u s0 now = false) ∧
    (getLock st.locks showId s0 now = some l → l.userId ≠ u →
      isLockConflict st.locks showId u s0 now = true) ∧
    (seats ≠ [] → lockRateCount st u showId + 1 ≤ LOCK_RATE_LIMIT_MAX →
      findActiveShow db showId = some sh →
      (∀ s ∈ seats, isLockConflict st.locks showId u s now = false) →
      (lockSeats db st u showId seats now).1
        = .granted seats SEAT_LOCK_TTL_SECONDS ∧
      ∀ s ∈ seats,
        lookupKV ((lockSeats db st u showId seats now).2).locks (showId, s)
          = some { userId := u, lockedAt := now,
                   expiresAt := now + SEAT_LOCK_TTL_SECONDS, parseOk := true }) := by
  refine ⟨?_, ?_, ?_⟩
  · intro h hp hu
    unfold isLockConflict
    rw [h]
    simp [hp, hu]
  · intro h hu
    unfold isLockConflict
    rw [h]
    simp [hu]
  · intro hne hrate hshow hall
    have hc : lockConflicts st.locks showId u seats now = [] := by
      unfold lockConflicts
      rw [List.filter_eq_nil_iff]
      intro s hs
      simp [hall s hs]
    have h := (lockSeats_spec db st u showId seats now sh hne hrate hshow).1 hc
    refine ⟨h.1, fun s hs => ?_⟩
    rw [h.2]
    exact lookupKV_setLocks_mem showId seats _ s hs st.locks

/-- Witness for C3 (amended) at the concrete same-holder scenario. -/
theorem same_holder_relock_not_conflict_witness :
    isLockConflict stLockedU1.locks "S" "u1" "A1" 10 = false ∧
    (lockSeats dbOne stLockedU1 "u1" "S" ["A1"] 10).1
      = .granted ["A1"] SEAT_LOCK_TTL_SECONDS := by
  constructor
  · exact (same_holder_relock_not_conflict dbOne stLockedU1 "u1" "S" ["A1"] 10
      showOne { userId := "u1", lockedAt := 0,
                expiresAt := SEAT_LOCK_TTL_SECONDS, parseOk := true } "A1").1
      (by decide) (by decide) (by decide)
  · exact ((same_holder_relock_not_conflict dbOne stLockedU1 "u1" "S" ["A1"] 10
      showOne { userId := "u1", lockedAt := 0,
                expiresAt := SEAT_LOCK_TTL_SECONDS, parseOk := true } "A1").2.2
      (by decide) (by decide) (by decide) (by decide)).1

/-- C4: for a validated, rate-admitted lock request over a non-empty
seats array, the outcome is all-or-nothing: on any conflict the handler
returns exactly the conflicting seat identifiers
(`lockConflicts = seats.filter isLockConflict`, seat ids rather than raw
store keys) and creates or modifies no lock key at all; otherwise every
requested seat's key is set with the configured 300-second TTL. -/
theorem lock_all_or_nothing (db : CinemaDb) (st : SysState)
    (u showId : String) (seats : List String) (now : Nat) (sh : Show)
    (hne : seats ≠ [])
    (hrate : lockRateCount st u showId + 1 ≤ LOCK_RATE_LIMIT_MAX)
    (hshow : findActiveShow db showId = some sh) :
    (lockConflicts st.locks showId u seats now ≠ [] →
      (lockSeats db st u showId seats now).1
        = .conflict (lockConflicts st.locks showId u seats now) ∧
      ((lockSeats db st u showId seats now).2).locks = st.locks) ∧
    (lockConflicts st.locks showId u seats now = [] →
      (lockSeats db st u showId seats now).1
        = .granted seats SEAT_LOCK_TTL_SECONDS ∧
      ∀ s ∈ seats,
        lookupKV ((lockSeats db st u showId seats now).2).locks (showId, s)
          = some { userId := u, lockedAt := now,
                   expiresAt := now + SEAT_LOCK_TTL_SECONDS, parseOk := true }) := by
  have h := lockSeats_spec db st u showId seats now sh hne hrate hshow
  refine ⟨fun hc => h.2.1 hc, fun hc => ⟨(h.1 hc).1, fun s hs => ?_⟩⟩
  rw [(h.1 hc).2]
  exact lookupKV_setLocks_mem showId seats _ s hs st.locks

/-- Witness for C4: the concrete conflicting request leaves the lock
store untouched and reports the seat id; the concrete clean request
locks every seat. -/
theorem lock_all_or_nothing_witness :
    ((lockSeats dbOne stLockedU1 "u2" "S" ["A1"] 10).1 = .conflict ["A1"] ∧
      ((lockSeats dbOne stLockedU1 "u2" "S" ["A1"] 10).2).locks
        = stLockedU1.locks) ∧
    lookupKV ((lockSeats dbOne SysState.initial "u1" "S" ["A1", "A2"] 0).2).locks
        ("S", "A1")
      = some { userId := "u1", lockedAt := 0,
               expiresAt := 0 + SEAT_LOCK_TTL_SECONDS, parseOk := true } := by
  constructor
  · have h := (lock_all_or_nothing dbOne stLockedU1 "u2" "S" ["A1"] 10 showOne
      (by decide) (by decide) (by decide)).1 (by decide)
    have hc : lockConflicts stLockedU1.locks "S" "u2" ["A1"] 10 = ["A1"] := by
      decide
    exact ⟨hc ▸ h.1, h.2⟩
  · exact ((lock_all_or_nothing dbOne SysState.initial "u1" "S" ["A1", "A2"] 0
      showOne (by decide) (by decide) (by decide)).2 (by decide)).2 "A1" (by decide)

/-- Witness for C5: `u2` books the seat `A1` already held by `u1`'s
confirmed booking; the insert is rejected by the index and the handler
reports exactly `["A1"]`, leaving bookings and locks unchanged. -/
theorem createBooking_dup_witness :
    (createBooking dbOne stU2Locked "u2" "S" "M" ["A1"] 30).1
      = .dupConflict ["A1"] ∧
    ((createBooking dbOne stU2Locked "u2" "S" "M" ["A1"] 30).2).bookings
      = stU2Locked.bookings ∧
    ((createBooking dbOne stU2Locked "u2" "S" "M" ["A1"] 30).2).locks
      = stU2Locked.locks := by
  have h := createBooking_dup dbOne stU2Locked "u2" "S" "M" ["A1"] 30 showOne
    movieOne (by decide) (by decide) (by decide) (by decide) (by decide)
    (by decide) (by decide) (by decide)
  have hr : requeryConflictSeats stU2Locked.bookings "S" ["A1"] = ["A1"] := by
    decide
  exact ⟨hr ▸ h.1, h.2.1, h.2.2.1⟩

/-- C6: a settlement on a booking whose `paymentStatus` is already
`SUCCESS` is rejected with the state unchanged; a `FAILED` settlement on
a settleable booking sets `paymentStatus = FAILED` and
`bookingStatus = CANCELLED`; a `SUCCESS` settlement sets
`paymentStatus = SUCCESS` (and leaves `bookingStatus` as it was). -/
theorem settle_payment_rules (st : SysState) (u : String) (bid : Nat)
    (status : SettleStatus) (m fr : String) (now : Nat) (b : Booking)
    (hfind : findBooking st.bookings bid = some b) (howner : b.userId = u) :
    (b.paymentStatus = .SUCCESS →
      mockPayment st u bid status m fr now = (.alreadyPaid, st)) ∧
    (b.paymentStatus ≠ .SUCCESS → status = .FAILED →
      (mockPayment st u bid status m fr now).1 = .processed ∧
      findBooking ((mockPayment st u bid status m fr now).2).bookings bid
        = some { b with
            paymentStatus := .FAILED,
            bookingStatus := .CANCELLED }) ∧
    (b.paymentStatus ≠ .SUCCESS → status = .SUCCESS →
      (mockPayment st u bid status m fr now).1 = .processed ∧
      findBooking ((mockPayment st u bid status m fr now).2).bookings bid
        = some { b with paymentStatus := .SUCCESS }) := by
  unfold mockPayment
  rw [hfind]
  dsimp only
  rw [if_neg (by simp [howner])]
  refine ⟨?_, ?_, ?_⟩
  · intro hps
    rw [if_pos hps]
  · intro hps hf
    subst hf
    rw [if_neg hps]
    try dsimp only
    rw [if_neg (by simp)]
    refine ⟨rfl, ?_⟩
    simpa using findBooking_settleInStore st.bookings bid .FAILED b hfind
  · intro hps hs
    subst hs
    rw [if_neg hps]
    try dsimp only
    rw [if_pos rfl]
    refine ⟨rfl, ?_⟩
    simpa using findBooking_settleInStore st.bookings bid .SUCCESS b hfind

/-- Witness for C6: failing the payment of the concrete pending booking
cancels it. -/
theorem settle_payment_rules_witness :
    (mockPayment stBookedU1 "u1" 0 .FAILED "CARD" "declined" 50).1
      = .processed ∧
    findBooking
        ((mockPayment stBookedU1 "u1" 0 .FAILED "CARD" "declined" 50).2).bookings 0
      = some { bkExisting with
          paymentStatus := .FAILED,
          bookingStatus := .CANCELLED } := by
  exact (settle_payment_rules stBookedU1 "u1" 0 .FAILED "CARD" "declined" 50
    bkExisting (by decide) (by decide)).2.1 (by decide) rfl

/-- C7 counterexample: a lock request by `u2` that is answered with a
409 conflict still appends a `seatsLocked` event for `u2` to the show's
channel — the broadcast is not restricted to successful requests. -/
theorem seatslocked_on_conflict_counterexample :
    (lockSeats dbOne stLockedU1 "u2" "S" ["A1"] 10).1 = .conflict ["A1"] ∧
    ((lockSeats dbOne stLockedU1 "u2" "S" ["A1"] 10).2).events
      = [.seatsLocked "S" ["A1", "A2"] "u1", .seatsLocked "S" ["A1"] "u2"] := by
  decide

/-- C7 (amended): the `seatsLocked` event is published for every lock
request that passes validation, the rate limiter and the show lookup —
on conflict responses exactly as on grants — carrying the show, the
requested seats and the requester; a rate-limited request publishes
nothing. -/
theorem seatslocked_broadcast_unconditional (db : CinemaDb) (st : SysState)
    (u showId : String) (seats : List String) (now : Nat) (sh : Show)
    (hne : seats ≠ [])
    (hshow : findActiveShow db showId = some sh) :
    (lockRateCount st u showId + 1 ≤ LOCK_RATE_LIMIT_MAX →
      ((lockSeats db st u showId seats now).2).events
        = st.events ++ [.seatsLocked showId seats u]) ∧
    (lockRateCount st u showId + 1 > LOCK_RATE_LIMIT_MAX →
      ((lockSeats db st u showId seats now).2).events = st.events) := by
  constructor
  · intro hrate
    exact (lockSeats_spec db st u showId seats now sh hne hrate hshow).2.2
  · intro hrate
    unfold lockSeats
    dsimp only
    rw [if_neg hne, lockRateCount_eq, if_pos hrate]

/-- Witness for C7 (amended): the concrete conflicting request appends
the event. -/
theorem seatslocked_broadcast_unconditional_witness :
    ((lockSeats dbOne stLockedU1 "u2" "S" ["A1"] 10).2).events
      = stLockedU1.events ++ [.seatsLocked "S" ["A1"] "u2"] := by
  exact (seatslocked_broadcast_unconditional dbOne stLockedU1 "u2" "S" ["A1"] 10
    showOne (by decide) (by decide)).1 (by decide)

theorem lockRateCount_iterate (db : CinemaDb) (u showId : String)
    (seatsFn : Nat → List String) (now : Nat)
    (hseats : ∀ k, seatsFn k ≠ []) (k : Nat) (st : SysState) :
    lockRateCount (iterateLock db u showId seatsFn now k st) u showId
      = lockRateCount st u showId + k := by
  induction k with
  | zero => rfl
  | succ n ih =>
    unfold iterateLock
    rw [(lockSeats_rate_spec db _ u showId (seatsFn n) now (hseats n)).1, ih]
    omega

/-- C8: with the lock rate limiter at 20 attempts per 60-second window,
the 21st request of a (user, show) pair within the window is rejected as
`rateLimited` — a constructor distinct from `conflict` — no matter which
seats each attempt targeted; the first request of a window stores the
window expiry `now + 60`, and every request (with a non-empty seats
array) increments the counter. -/
theorem lock_rate_limit_21st (db : CinemaDb) (st : SysState)
    (u showId : String) (seatsFn : Nat → List String) (now : Nat)
    (hfresh : lookupKV st.lockRate (u, showId) = none)
    (hseats : ∀ k, seatsFn k ≠ []) :
    (lockSeats db (iterateLock db u showId seatsFn now LOCK_RATE_LIMIT_MAX st)
        u showId (seatsFn LOCK_RATE_LIMIT_MAX) now).1 = .rateLimited ∧
    (∀ cs, (LockOutcome.rateLimited : LockOutcome) ≠ .conflict cs) ∧
    lookupKV ((lockSeats db st u showId (seatsFn 0) now).2).lockRate (u, showId)
      = some { count := 1, windowExpiresAt := some (now + LOCK_RATE_LIMIT_TTL) } ∧
    (∀ (st' : SysState) (seats' : List String), seats' ≠ [] →
      lockRateCount ((lockSeats db st' u showId seats' now).2) u showId
        = lockRateCount st' u showId + 1) := by
  have h0 : lockRateCount st u showId = 0 := by
    unfold lockRateCount
    rw [hfresh]
  refine ⟨?_, ?_, ?_, ?_⟩
  · apply (lockSeats_rate_spec db _ u showId (seatsFn LOCK_RATE_LIMIT_MAX) now
      (hseats LOCK_RATE_LIMIT_MAX)).2.2
    rw [lockRateCount_iterate db u showId seatsFn now hseats LOCK_RATE_LIMIT_MAX st, h0]
    decide
  · intro cs
    simp
  · exact (lockSeats_rate_spec db st u showId (seatsFn 0) now (hseats 0)).2.1 hfresh
  · intro st' seats' h
    exact (lockSeats_rate_spec db st' u showId seats' now h).1

/-- Witness for C8: from a fresh window, the 21st concrete request is
rejected as rate-limited. -/
theorem lock_rate_limit_21st_witness :
    (lockSeats dbOne (iterateLock dbOne "u1" "S" (fun _ => ["A1"]) 0
        LOCK_RATE_LIMIT_MAX SysState.initial) "u1" "S" ["A1"] 0).1
      = .rateLimited := by
  exact (lock_rate_limit_21st dbOne SysState.initial "u1" "S" (fun _ => ["A1"]) 0
    (by decide) (fun _ => List.cons_ne_nil _ _)).1

/-- C9: deleting a cache key and immediately reading through it always
runs the loader (no stale hit), and in particular both the movie-list
read and the new movie's detail read invoke their Mongo loaders after a
movie-create invalidation and return the freshly loaded payload. -/
theorem invalidate_then_read_through (c : Cache) (key loaderVal : String)
    (ttl now : Nat) (movieId listVal detailVal : String) :
    ((readThrough (cacheDel c key) key loaderVal ttl now).fromCache = false ∧
      (readThrough (cacheDel c key) key loaderVal ttl now).value = loaderVal) ∧
    ((readThrough (createMovieInvalidate c movieId) MOVIES_CACHE_KEY
        listVal ttl now).fromCache = false ∧
      (readThrough (createMovieInvalidate c movieId) MOVIES_CACHE_KEY
        listVal ttl now).value = listVal) ∧
    ((readThrough (createMovieInvalidate c movieId) (movieDetailKey movieId)
        detailVal ttl now).fromCache = false ∧
      (readThrough (createMovieInvalidate c movieId) (movieDetailKey movieId)
        detailVal ttl now).value = detailVal) := by
  have hlist : lookupKV
      (delKV (delKV c MOVIES_CACHE_KEY) (movieDetailKey movieId))
      MOVIES_CACHE_KEY = none := by
    by_cases h : movieDetailKey movieId = MOVIES_CACHE_KEY
    · rw [h]
      exact lookupKV_delKV_self _ _
    · rw [lookupKV_delKV_other _ _ _ h]
      exact lookupKV_delKV_self _ _
  have hdet : lookupKV
      (delKV (delKV c MOVIES_CACHE_KEY) (movieDetailKey movieId))
      (movieDetailKey movieId) = none := lookupKV_delKV_self _ _
  refine ⟨?_, ?_, ?_⟩
  · unfold readThrough cacheGet cacheDel
    rw [lookupKV_delKV_self]
    exact ⟨rfl, rfl⟩
  · unfold readThrough cacheGet createMovieInvalidate cacheDel
    rw [hlist]
    exact ⟨rfl, rfl⟩
  · unfold readThrough cacheGet createMovieInvalidate cacheDel
    rw [hdet]
    exact ⟨rfl, rfl⟩

/-- C10: a settlement request by a user who does not own the booking is
rejected with 403 and changes nothing: the returned state is the input
state, so no `Payment` document is created, the booking keeps its
`paymentStatus` and `bookingStatus`, and no seat locks are cleared. -/
theorem payment_ownership_guard (st : SysState) (u : String) (bid : Nat)
    (status : SettleStatus) (m fr : String) (now : Nat) (b : Booking)
    (hfind : findBooking st.bookings bid = some b) (hne : b.userId ≠ u) :
    mockPayment st u bid status m fr now = (.forbidden, st) := by
  unfold mockPayment
  rw [hfind]
  dsimp only
  rw [if_pos hne]

/-- Witness for C10: `u2` cannot settle `u1`'s concrete booking; the
state is returned unchanged. -/
theorem payment_ownership_guard_witness :
    mockPayment stBookedU1 "u2" 0 .SUCCESS "CARD" "x" 50
      = (.forbidden, stBookedU1) :=
  payment_ownership_guard stBookedU1 "u2" 0 .SUCCESS "CARD" "x" 50 bkExisting
    (by decide) (by decide)

end BookBackend
